import Mathlib

/-!
Shallow embedding of the sl-micro-controllers module firmware (src/src/*.h).

Actuator handlers (ValveModule, TTLModule, BreakModule, ScreenModule,
SpeakerModule) are translated as functions over an explicit per-tick state.
The Module base-class primitives (module.h, a library dependency not present
in this repository) are modelled from the specification, sections 4.1, 5 and
6.  Sensor filters (LickModule, EncoderModule) are translated as pure
state-transition functions whose raw hardware samples are supplied as inputs.
Machine integers are Nat / Int with explicit two's-complement wrapping where
the C arithmetic can overflow.
-/

namespace SlMicro

/-- An event sent to the PC by SendData: a status byte code plus an optional
payload value (absent for status-only events). -/
structure Event where
  status : Nat
  value : Option Nat
deriving DecidableEq

/-- Modelled from the spec (section 4.1): the lifecycle phase of the in-flight
command: still running, completed successfully, or aborted (halted pending
external clearance). -/
inductive CmdPhase
  | running
  | completed
  | aborted
deriving DecidableEq

/-- Modelled from the spec (section 3): ExecutionState of the Module base
class (module.h, not in this repository): the current command stage together
with the stage-start timestamp used for elapsed-time checks, plus the
lifecycle phase. -/
structure ExecState where
  stage : Nat
  stageStart : Nat
  phase : CmdPhase
deriving DecidableEq

/-- Modelled from the spec (sections 5 and 6): the externally owned inputs a
tick can observe: the two shared output locks (action pins and TTL pins), the
current time in microseconds, and the level returned by a digital read. -/
structure Env where
  actionLock : Bool
  ttlLock : Bool
  now : Nat
  digitalLevel : Bool
deriving DecidableEq

/-- The observable effect of one tick of a module handler: the execution
state plus the ordered lists of emitted events, digital pin writes that
physically occurred, PWM writes, and digital pin reads. -/
structure Tick where
  exec : ExecState
  events : List Event
  writes : List (Nat × Bool)
  pwmWrites : List (Nat × Nat)
  reads : List Nat
deriving DecidableEq

/-- Modelled from the spec (section 6): SendData appends one outbound event. -/
def sendData (t : Tick) (status : Nat) (value : Option Nat) : Tick :=
  { t with events := t.events ++ [⟨status, value⟩] }

/-- Modelled from the spec (section 6): DigitalWrite returns false exactly
when the relevant shared lock is engaged, in which case no hardware state
changes; otherwise the pin level change is recorded and it returns true. -/
def DigitalWrite (env : Env) (pin : Nat) (level : Bool) (isTtl : Bool) (t : Tick) :
    Bool × Tick :=
  if (if isTtl then env.ttlLock else env.actionLock) then (false, t)
  else (true, { t with writes := t.writes ++ [(pin, level)] })

/-- Modelled from the spec (section 6): AnalogWrite, the PWM analogue of
DigitalWrite, rejected exactly when the relevant shared lock is engaged. -/
def AnalogWrite (env : Env) (pin : Nat) (duty : Nat) (isTtl : Bool) (t : Tick) :
    Bool × Tick :=
  if (if isTtl then env.ttlLock else env.actionLock) then (false, t)
  else (true, { t with pwmWrites := t.pwmWrites ++ [(pin, duty)] })

/-- Raw digitalWriteFast: an unguarded pin write that bypasses the shared
lock (used by ValveModule for the tone pin). -/
def digitalWriteFast (t : Tick) (pin : Nat) (level : Bool) : Tick :=
  { t with writes := t.writes ++ [(pin, level)] }

/-- Modelled from the spec (section 6): DigitalRead returns the (averaged)
level of the pin; the read is recorded. -/
def DigitalRead (env : Env) (pin : Nat) (pool : Nat) (t : Tick) : Bool × Tick :=
  (env.digitalLevel, { t with reads := t.reads ++ [pin] })

/-- Modelled from the spec (section 4.1): advancing the command stage moves to
the next stage and re-anchors the elapsed-time origin at the current time. -/
def AdvanceCommandStage (env : Env) (t : Tick) : Tick :=
  { t with exec := ⟨t.exec.stage + 1, env.now, t.exec.phase⟩ }

/-- Modelled from the spec (sections 3 and 4.1): completing a command returns
the module to the idle stage and signals success. -/
def CompleteCommand (t : Tick) : Tick :=
  { t with exec := { t.exec with stage := 0, phase := CmdPhase.completed } }

/-- Modelled from the spec (sections 3 and 4.1): aborting returns the module
to a halted state (stage reset to idle) pending external clearance. -/
def AbortCommand (t : Tick) : Tick :=
  { t with exec := { t.exec with stage := 0, phase := CmdPhase.aborted } }

/-- Modelled from the spec (sections 4.1 and 5): WaitForMicros compares the
time elapsed since the last stage anchor against the requested duration and
has no side effects. -/
def WaitForMicros (env : Env) (t : Tick) (duration : Nat) : Bool :=
  duration ≤ env.now - t.exec.stageStart

/-- Truncating uint32 subtraction, as computed by C uint32 arithmetic. -/
def sub32 (a b : Nat) : Nat := (a + 2 ^ 32 - b) % 2 ^ 32

/-- Two's-complement wrap of an integer into the int32 range. -/
def wrap32 (x : Int) : Int := (x + 2 ^ 31) % 2 ^ 32 - 2 ^ 31

/-- A tick entered at the given stage with the given stage anchor, the
command still running and no effects recorded yet. -/
def entryTick (stage anchor : Nat) : Tick := ⟨⟨stage, anchor, CmdPhase.running⟩, [], [], [], []⟩

/-! ## LickModule (src/src/lick_module.h) -/

/-- CustomRuntimeParameters of LickModule (lick_module.h lines 118-123). -/
structure LickParams where
  signal_threshold : Nat
  delta_threshold : Nat
  average_pool_size : Nat
deriving DecidableEq

/-- The function-local static filter state of LickModule.CheckState
(lick_module.h lines 131-134): the previous reported-path readout and the
previous-report-was-zero flag. -/
structure LickState where
  previous_readout : Nat
  previous_zero : Bool
deriving DecidableEq

/-- The uint16 absolute difference computed by LickModule.CheckState
(lick_module.h lines 146-147). -/
def lickDelta (signal prev : Nat) : Nat := ((signal : Int) - (prev : Int)).natAbs

/-- One invocation of LickModule.CheckState (lick_module.h lines 126-186),
with the averaged analog sample supplied as input.  Returns the new filter
state and the events sent to the PC (kChanged = 51 with a uint16 payload). -/
def LickModule.CheckState (p : LickParams) (signal : Nat) (s : LickState) :
    LickState × List Event :=
  let delta := lickDelta signal s.previous_readout
  if delta ≤ p.delta_threshold then (s, [])
  else
    let s1 : LickState := { s with previous_readout := signal }
    if p.signal_threshold ≤ signal then
      ({ s1 with previous_zero := false }, [⟨51, some signal⟩])
    else if s1.previous_zero = false then
      ({ s1 with previous_zero := true }, [⟨51, some 0⟩])
    else
      (s1, [])

/-- Runs LickModule.CheckState over a sequence of samples, collecting all
emitted events in order. -/
def LickModule.run (p : LickParams) (s : LickState) : List Nat → LickState × List Event
  | [] => (s, [])
  | x :: xs =>
    let r := LickModule.CheckState p x s
    let rest := LickModule.run p r.1 xs
    (rest.1, r.2 ++ rest.2)

/-- The number of explicit zero events in an event list. -/
def zeroEventCount (es : List Event) : Nat :=
  es.countP (fun e => decide (e.value = some 0))

/-! ## EncoderModule (src/src/encoder_module.h) -/

/-- CustomRuntimeParameters of EncoderModule (encoder_module.h lines
165-170): the two direction-report flags and the uint32 delta threshold. -/
structure EncoderParams where
  report_CCW : Bool
  report_CW : Bool
  delta_threshold : Nat
deriving DecidableEq

/-- The overflow accumulator update performed by EncoderModule.ReadEncoder
for a nonzero motion readout (encoder_module.h lines 221-239): motion in a
reported direction accumulates unclamped (int32 wrap); motion in a
non-reported direction is clamped to the amortization bound derived from
delta_threshold. -/
def encoderOverflowUpdate (p : EncoderParams) (new_motion overflow : Int) : Int :=
  let positive_amortization := wrap32 p.delta_threshold
  let negative_amortization := wrap32 (-positive_amortization)
  if (new_motion < 0 ∧ p.report_CW = true) ∨ (0 < new_motion ∧ p.report_CCW = true) then
    wrap32 (overflow + new_motion)
  else if new_motion < 0 then
    max (wrap32 (overflow + new_motion)) negative_amortization
  else
    min (wrap32 (overflow + new_motion)) positive_amortization

/-- One invocation of EncoderModule.ReadEncoder (encoder_module.h lines
191-270), with the readAndReset counter value supplied as input.  Returns the
new overflow accumulator and the events sent to the PC (kRotatedCCW = 51,
kRotatedCW = 52, each carrying the uint32 magnitude). -/
def EncoderModule.ReadEncoder (p : EncoderParams) (invert : Bool) (counter overflow : Int) :
    Int × List Event :=
  let kMultiplier : Int := if invert then -1 else 1
  let new_motion := wrap32 (counter * kMultiplier)
  if new_motion = 0 then (overflow, [])
  else
    let ov1 := encoderOverflowUpdate p new_motion overflow
    let delta := ov1.natAbs % 2 ^ 32
    if ov1 < 0 ∧ p.delta_threshold < delta then (0, [⟨52, some delta⟩])
    else if 0 < ov1 ∧ p.delta_threshold < delta then (0, [⟨51, some delta⟩])
    else (ov1, [])

/-- Runs EncoderModule.ReadEncoder over a sequence of raw counter readouts,
recording after each check the overflow accumulator and the emitted events. -/
def EncoderModule.trace (p : EncoderParams) (invert : Bool) (overflow : Int) :
    List Int → List (Int × List Event)
  | [] => []
  | c :: cs =>
    let r := EncoderModule.ReadEncoder p invert c overflow
    r :: EncoderModule.trace p invert r.1 cs

/-- Modelled from the spec (section 4.3): EncoderModule.GetPPR
(encoder_module.h lines 282-322) with the blocking index-edge waits and the
100 ms delays abstracted into the input: counts i is the signed pulse counter
accumulated during the i-th measured rotation.  The loop runs exactly 10
times, accumulating absolute counts with uint32 wrap, then reports the
uint16 cast of (sum + 10 / 2) / 10 as the kPPR = 53 event. -/
def EncoderModule.GetPPR (counts : Nat → Int) : Nat × List Event :=
  let pprs := (List.range 10).foldl (fun acc i => (acc + (counts i).natAbs) % 2 ^ 32) 0
  let average_ppr := ((pprs + 10 / 2) / 10) % 2 ^ 16
  (average_ppr, [⟨53, some average_ppr⟩])

/-! ## ValveModule (src/src/valve_module.h)

Status codes: kOutputLocked = 51, kOpen = 52, kClosed = 53, kCalibrated = 54,
kToneOn = 55, kToneOff = 56, kTonePinNotSet = 57.  HIGH is modelled as true,
LOW as false. -/

/-- The template configuration of a ValveModule instance. -/
structure ValveConfig where
  kPin : Nat
  kNormallyClosed : Bool
  kStartClosed : Bool
  kTonePin : Nat
deriving DecidableEq

/-- The digital signal that opens the valve (valve_module.h line 174):
HIGH for a normally closed valve, LOW otherwise. -/
def ValveConfig.kOpen (c : ValveConfig) : Bool := if c.kNormallyClosed then true else false

/-- The digital signal that closes the valve (valve_module.h line 178). -/
def ValveConfig.kClose (c : ValveConfig) : Bool := if c.kNormallyClosed then false else true

/-- CustomRuntimeParameters of ValveModule (valve_module.h lines 163-170). -/
structure ValveParams where
  pulse_duration : Nat
  calibration_delay : Nat
  calibration_count : Nat
  tone_duration : Nat
deriving DecidableEq

/-- One tick of ValveModule.Pulse (valve_module.h lines 181-259): the staged
kSendPulse command.  Stage 1 drives the open signal (guarded by the shared
lock), stage 2 waits pulse_duration microseconds, stage 3 drives the close
signal and completes unless a tone pin is configured, in which case stage 4
waits the remaining tone duration and stage 5 silences the tone pin and
completes. -/
def ValveModule.Pulse (cfg : ValveConfig) (p : ValveParams) (env : Env) (t : Tick) : Tick :=
  let t1 :=
    if t.exec.stage = 1 then
      let r := DigitalWrite env cfg.kPin cfg.kOpen false t
      if r.1 then
        let ta := sendData r.2 52 none
        let tb :=
          if cfg.kTonePin ≠ 255 then sendData (digitalWriteFast ta cfg.kTonePin true) 55 none
          else ta
        AdvanceCommandStage env tb
      else AbortCommand (sendData r.2 51 none)
    else t
  let t2 :=
    if t1.exec.stage = 2 then
      if WaitForMicros env t1 p.pulse_duration then AdvanceCommandStage env t1 else t1
    else t1
  let t3 :=
    if t2.exec.stage = 3 then
      let r := DigitalWrite env cfg.kPin cfg.kClose false t2
      if r.1 then
        let ta := sendData r.2 53 none
        if cfg.kTonePin = 255 then CompleteCommand ta else AdvanceCommandStage env ta
      else AbortCommand (sendData r.2 51 none)
    else t2
  let t4 :=
    if t3.exec.stage = 4 then
      if WaitForMicros env t3 (sub32 p.tone_duration p.pulse_duration) then
        AdvanceCommandStage env t3
      else t3
    else t3
  if t4.exec.stage = 5 then
    CompleteCommand (sendData (digitalWriteFast t4 cfg.kTonePin false) 56 none)
  else t4

/-- ValveModule.Open (valve_module.h lines 262-277): the single-stage
kToggleOn command. -/
def ValveModule.Open (cfg : ValveConfig) (env : Env) (t : Tick) : Tick :=
  let r := DigitalWrite env cfg.kPin cfg.kOpen false t
  if r.1 then CompleteCommand (sendData r.2 52 none)
  else AbortCommand (sendData r.2 51 none)

/-- ValveModule.Close (valve_module.h lines 280-295): the single-stage
kToggleOff command. -/
def ValveModule.Close (cfg : ValveConfig) (env : Env) (t : Tick) : Tick :=
  let r := DigitalWrite env cfg.kPin cfg.kClose false t
  if r.1 then CompleteCommand (sendData r.2 53 none)
  else AbortCommand (sendData r.2 51 none)

/-- One tick of ValveModule.Tone (valve_module.h lines 342-395): the staged
kTonePulse command.  Note the guard at line 345 aborts with kTonePinNotSet
exactly when kTonePin differs from the 255 sentinel. -/
def ValveModule.Tone (cfg : ValveConfig) (p : ValveParams) (env : Env) (t : Tick) : Tick :=
  if cfg.kTonePin ≠ 255 then AbortCommand (sendData t 57 none)
  else
    let t1 :=
      if t.exec.stage = 1 then
        let r := DigitalWrite env cfg.kTonePin true false t
        if r.1 then AdvanceCommandStage env (sendData r.2 55 none)
        else AbortCommand (sendData r.2 51 none)
      else t
    let t2 :=
      if t1.exec.stage = 2 then
        if WaitForMicros env t1 p.tone_duration then AdvanceCommandStage env t1 else t1
      else t1
    if t2.exec.stage = 3 then
      let r := DigitalWrite env cfg.kTonePin false false t2
      if r.1 then CompleteCommand (sendData r.2 56 none)
      else AbortCommand (sendData r.2 51 none)
    else t2

/-! ## TTLModule (src/src/ttl_module.h)

Status codes: kOutputLocked = 51, kInputOn = 52, kInputOff = 53,
kInvalidPinMode = 54. -/

/-- The template configuration of a TTLModule instance. -/
structure TTLConfig where
  kPin : Nat
  kOutput : Bool
  kStartOn : Bool
deriving DecidableEq

/-- CustomRuntimeParameters of TTLModule (ttl_module.h lines 129-133). -/
structure TTLParams where
  pulse_duration : Nat
  average_pool_size : Nat
deriving DecidableEq

/-- One tick of TTLModule.SendPulse (ttl_module.h lines 137-187): rejects the
command with kInvalidPinMode when configured as input, otherwise runs the
3-stage pulse guarded by the TTL lock. -/
def TTLModule.SendPulse (cfg : TTLConfig) (p : TTLParams) (env : Env) (t : Tick) : Tick :=
  if cfg.kOutput = false then AbortCommand (sendData t 54 none)
  else
    let t1 :=
      if t.exec.stage = 1 then
        let r := DigitalWrite env cfg.kPin true true t
        if r.1 then AdvanceCommandStage env r.2
        else AbortCommand (sendData r.2 51 none)
      else t
    let t2 :=
      if t1.exec.stage = 2 then
        if WaitForMicros env t1 p.pulse_duration then AdvanceCommandStage env t1 else t1
      else t1
    if t2.exec.stage = 3 then
      let r := DigitalWrite env cfg.kPin false true t2
      if r.1 then CompleteCommand r.2
      else AbortCommand (sendData r.2 51 none)
    else t2

/-- TTLModule.ToggleOn (ttl_module.h lines 190-210). -/
def TTLModule.ToggleOn (cfg : TTLConfig) (env : Env) (t : Tick) : Tick :=
  if cfg.kOutput = false then AbortCommand (sendData t 54 none)
  else
    let r := DigitalWrite env cfg.kPin true true t
    if r.1 then CompleteCommand r.2
    else AbortCommand (sendData r.2 51 none)

/-- TTLModule.ToggleOff (ttl_module.h lines 213-233). -/
def TTLModule.ToggleOff (cfg : TTLConfig) (env : Env) (t : Tick) : Tick :=
  if cfg.kOutput = false then AbortCommand (sendData t 54 none)
  else
    let r := DigitalWrite env cfg.kPin false true t
    if r.1 then CompleteCommand r.2
    else AbortCommand (sendData r.2 51 none)

/-- TTLModule.CheckState (ttl_module.h lines 237-267): rejects the command
with kInvalidPinMode when configured as output; otherwise reads the pin and
reports only level changes relative to the static previous_input_status. -/
def TTLModule.CheckState (cfg : TTLConfig) (p : TTLParams) (env : Env)
    (previous_input_status : Bool) (t : Tick) : Bool × Tick :=
  if cfg.kOutput = true then (previous_input_status, AbortCommand (sendData t 54 none))
  else
    let r := DigitalRead env cfg.kPin p.average_pool_size t
    if previous_input_status ≠ r.1 then
      (r.1, CompleteCommand (sendData r.2 (if r.1 then 52 else 53) none))
    else (previous_input_status, CompleteCommand r.2)

/-! ## BreakModule (src/src/break_module.h)

Status codes: kOutputLocked = 51. -/

/-- The template configuration of a BreakModule instance. -/
structure BreakConfig where
  kPin : Nat
  kNormallyEngaged : Bool
  kStartEngaged : Bool
deriving DecidableEq

/-- The digital signal that engages the break (break_module.h line 129). -/
def BreakConfig.kEngage (c : BreakConfig) : Bool := if c.kNormallyEngaged then true else false

/-- The digital signal that disengages the break (break_module.h line 133). -/
def BreakConfig.kDisengage (c : BreakConfig) : Bool := if c.kNormallyEngaged then false else true

/-- BreakModule.EnableBreak (break_module.h lines 136-147). -/
def BreakModule.EnableBreak (cfg : BreakConfig) (env : Env) (t : Tick) : Tick :=
  let r := DigitalWrite env cfg.kPin cfg.kEngage false t
  if r.1 then CompleteCommand r.2
  else AbortCommand (sendData r.2 51 none)

/-- BreakModule.DisableBreak (break_module.h lines 150-161). -/
def BreakModule.DisableBreak (cfg : BreakConfig) (env : Env) (t : Tick) : Tick :=
  let r := DigitalWrite env cfg.kPin cfg.kDisengage false t
  if r.1 then CompleteCommand r.2
  else AbortCommand (sendData r.2 51 none)

/-- BreakModule.SetBreakingPower (break_module.h lines 164-184): maps the
8-bit strength to a PWM duty cycle, inverted for a normally engaged break. -/
def BreakModule.SetBreakingPower (cfg : BreakConfig) (breaking_strength : Nat) (env : Env)
    (t : Tick) : Tick :=
  let value := if cfg.kNormallyEngaged then 255 - breaking_strength else breaking_strength
  let r := AnalogWrite env cfg.kPin value false t
  if r.1 then CompleteCommand r.2
  else AbortCommand (sendData r.2 51 none)

/-! ## ScreenModule (src/src/screen_module.h)

Status codes: kOutputLocked = 51, kOn = 52, kOff = 53. -/

/-- The template configuration of a ScreenModule instance. -/
structure ScreenConfig where
  kLeftScreenPin : Nat
  kCenterScreenPin : Nat
  kRightScreenPin : Nat
  kNormallyClosed : Bool
deriving DecidableEq

/-- The signal that activates the screen logic gates (screen_module.h
line 148). -/
def ScreenConfig.kOn (c : ScreenConfig) : Bool := if c.kNormallyClosed then true else false

/-- The signal that deactivates the screen logic gates (screen_module.h
line 152). -/
def ScreenConfig.kOff (c : ScreenConfig) : Bool := if c.kNormallyClosed then false else true

/-- One tick of ScreenModule.Toggle (screen_module.h lines 156-211): stage 1
drives all three screen pins to the on signal (stopping at the first rejected
write), stage 2 waits pulse_duration microseconds, stage 3 drives all three
pins to the off signal and completes. -/
def ScreenModule.Toggle (cfg : ScreenConfig) (pulse_duration : Nat) (env : Env) (t : Tick) :
    Tick :=
  let t1 :=
    if t.exec.stage = 1 then
      let r1 := DigitalWrite env cfg.kLeftScreenPin cfg.kOn false t
      let r2 := if r1.1 then DigitalWrite env cfg.kCenterScreenPin cfg.kOn false r1.2 else r1
      let r3 := if r2.1 then DigitalWrite env cfg.kRightScreenPin cfg.kOn false r2.2 else r2
      if r3.1 then AdvanceCommandStage env (sendData r3.2 52 none)
      else AbortCommand (sendData r3.2 51 none)
    else t
  let t2 :=
    if t1.exec.stage = 2 then
      if WaitForMicros env t1 pulse_duration then AdvanceCommandStage env t1 else t1
    else t1
  if t2.exec.stage = 3 then
    let r1 := DigitalWrite env cfg.kLeftScreenPin cfg.kOff false t2
    let r2 := if r1.1 then DigitalWrite env cfg.kCenterScreenPin cfg.kOff false r1.2 else r1
    let r3 := if r2.1 then DigitalWrite env cfg.kRightScreenPin cfg.kOff false r2.2 else r2
    if r3.1 then CompleteCommand (sendData r3.2 53 none)
    else AbortCommand (sendData r3.2 51 none)
  else t2

/-! ## SpeakerModule (src/src/speaker_module.h)

Status codes: kOutputLocked = 51, kOn = 52, kOff = 53. -/

/-- The template configuration of a SpeakerModule instance. -/
structure SpeakerConfig where
  kPin : Nat
  kStartOff : Bool
deriving DecidableEq

/-- One tick of SpeakerModule.Pulse (speaker_module.h lines 135-184): the
3-stage kSendPulse command on the buzzer pin. -/
def SpeakerModule.Pulse (cfg : SpeakerConfig) (pulse_duration : Nat) (env : Env) (t : Tick) :
    Tick :=
  let t1 :=
    if t.exec.stage = 1 then
      let r := DigitalWrite env cfg.kPin true false t
      if r.1 then AdvanceCommandStage env (sendData r.2 52 none)
      else AbortCommand (sendData r.2 51 none)
    else t
  let t2 :=
    if t1.exec.stage = 2 then
      if WaitForMicros env t1 pulse_duration then AdvanceCommandStage env t1 else t1
    else t1
  if t2.exec.stage = 3 then
    let r := DigitalWrite env cfg.kPin false false t2
    if r.1 then CompleteCommand (sendData r.2 53 none)
    else AbortCommand (sendData r.2 51 none)
  else t2

/-- SpeakerModule.Open (speaker_module.h lines 187-202). -/
def SpeakerModule.Open (cfg : SpeakerConfig) (env : Env) (t : Tick) : Tick :=
  let r := DigitalWrite env cfg.kPin true false t
  if r.1 then CompleteCommand (sendData r.2 52 none)
  else AbortCommand (sendData r.2 51 none)

/-- SpeakerModule.Close (speaker_module.h lines 205-220). -/
def SpeakerModule.Close (cfg : SpeakerConfig) (env : Env) (t : Tick) : Tick :=
  let r := DigitalWrite env cfg.kPin false false t
  if r.1 then CompleteCommand (sendData r.2 53 none)
  else AbortCommand (sendData r.2 51 none)

/-- The observable outcome asserted by the lock-abort claim: the tick emits
exactly the kOutputLocked = 51 event, performs no physical pin change, and
leaves the module halted at the idle stage (aborted, no stage advanced). -/
def lockAborted (t : Tick) : Prop :=
  t.events = [⟨51, none⟩] ∧ t.writes = [] ∧ t.pwmWrites = [] ∧
    t.exec.phase = CmdPhase.aborted ∧ t.exec.stage = 0

/-- The blocking calibration loop of ValveModule.Calibrate (valve_module.h
lines 307-337), by remaining iteration count: each cycle opens then closes
the valve (each write guarded by the shared lock, aborting on rejection); the
in-place delayMicroseconds calls have no observable tick effect.  After the
last cycle the kCalibrated = 54 status is sent and the command completes. -/
def valveCalibrateLoop (cfg : ValveConfig) (env : Env) : Nat → Tick → Tick
  | 0, t => CompleteCommand (sendData t 54 none)
  | n + 1, t =>
    let r := DigitalWrite env cfg.kPin cfg.kOpen false t
    if r.1 then
      let r2 := DigitalWrite env cfg.kPin cfg.kClose false r.2
      if r2.1 then valveCalibrateLoop cfg env n r2.2
      else AbortCommand (sendData r2.2 51 none)
    else AbortCommand (sendData r.2 51 none)

/-- ValveModule.Calibrate (valve_module.h lines 301-338): pulses the valve
calibration_count times in one blocking call. -/
def ValveModule.Calibrate (cfg : ValveConfig) (p : ValveParams) (env : Env) (t : Tick) : Tick :=
  valveCalibrateLoop cfg env p.calibration_count t

/-- The ValveModule configuration of the valve-pulse scenario: pin 5,
normally closed, start closed, no tone pin (255 sentinel). -/
def c4Config : ValveConfig := ⟨5, true, true, 255⟩

/-! ## Theorems -/

/-- C4: for a ValveModule with pin 5, normally_closed, start_closed, no tone
pin, and pulse_duration 35590 µs, SendPulse with the lock disengaged drives
pin 5 HIGH and emits the kOpen status in stage 1, performs no action in
stage 2 until 35590 µs have elapsed since the stage anchor, and once elapsed
drives pin 5 LOW, emits the kClosed status and completes the command. -/
theorem C4_valve_pulse_scenario (p : ValveParams) (env1 env2 env3 : Env) (a1 a2 a3 : Nat)
    (hp : p.pulse_duration = 35590)
    (h1 : env1.actionLock = false)
    (h2 : env2.now - a2 < 35590)
    (h3 : env3.actionLock = false) (h3e : 35590 ≤ env3.now - a3) :
    ValveModule.Pulse c4Config p env1 (entryTick 1 a1) =
      ⟨⟨2, env1.now, CmdPhase.running⟩, [⟨52, none⟩], [(5, true)], [], []⟩ ∧
    ValveModule.Pulse c4Config p env2 (entryTick 2 a2) = entryTick 2 a2 ∧
    ValveModule.Pulse c4Config p env3 (entryTick 2 a3) =
      ⟨⟨0, env3.now, CmdPhase.completed⟩, [⟨53, none⟩], [(5, false)], [], []⟩ := by
  refine ⟨?_, ?_, ?_⟩
  · simp [ValveModule.Pulse, c4Config, entryTick, DigitalWrite, sendData, digitalWriteFast,
      AdvanceCommandStage, CompleteCommand, AbortCommand, WaitForMicros,
      ValveConfig.kOpen, ValveConfig.kClose, h1, hp]
  · simp [ValveModule.Pulse, c4Config, entryTick, DigitalWrite, sendData, digitalWriteFast,
      AdvanceCommandStage, CompleteCommand, AbortCommand, WaitForMicros,
      ValveConfig.kOpen, ValveConfig.kClose, hp,
      show ¬ (35590 ≤ env2.now - a2) from by omega]
  · simp [ValveModule.Pulse, c4Config, entryTick, DigitalWrite, sendData, digitalWriteFast,
      AdvanceCommandStage, CompleteCommand, AbortCommand, WaitForMicros,
      ValveConfig.kOpen, ValveConfig.kClose, h3, h3e, hp]

/-- C4 witness: the scenario theorem applied at a concrete environment. -/
theorem C4_witness :
    ValveModule.Pulse c4Config ⟨35590, 200000, 500, 300000⟩ ⟨false, false, 100, false⟩
        (entryTick 1 0) =
      ⟨⟨2, 100, CmdPhase.running⟩, [⟨52, none⟩], [(5, true)], [], []⟩ ∧
    ValveModule.Pulse c4Config ⟨35590, 200000, 500, 300000⟩ ⟨false, false, 100, false⟩
        (entryTick 2 0) = entryTick 2 0 ∧
    ValveModule.Pulse c4Config ⟨35590, 200000, 500, 300000⟩ ⟨false, false, 40000, false⟩
        (entryTick 2 0) =
      ⟨⟨0, 40000, CmdPhase.completed⟩, [⟨53, none⟩], [(5, false)], [], []⟩ :=
  C4_valve_pulse_scenario ⟨35590, 200000, 500, 300000⟩
    ⟨false, false, 100, false⟩ ⟨false, false, 100, false⟩ ⟨false, false, 40000, false⟩
    0 0 0 rfl rfl (by decide) rfl (by decide)

/-- C7: a normally closed valve drives the physical HIGH level on ToggleOn
(open) and LOW on ToggleOff (close); the same valve wired normally open
drives the opposite physical levels; in all four cases, under a disengaged
lock, the emitted event sequence is identical: kOpen = 52 for ToggleOn and
kClosed = 53 for ToggleOff, each followed by command completion. -/
theorem C7_valve_polarity (pin tpin : Nat) (sc : Bool) (env : Env) (a : Nat)
    (hl : env.actionLock = false) :
    ValveModule.Open ⟨pin, true, sc, tpin⟩ env (entryTick 1 a) =
      ⟨⟨0, a, CmdPhase.completed⟩, [⟨52, none⟩], [(pin, true)], [], []⟩ ∧
    ValveModule.Close ⟨pin, true, sc, tpin⟩ env (entryTick 1 a) =
      ⟨⟨0, a, CmdPhase.completed⟩, [⟨53, none⟩], [(pin, false)], [], []⟩ ∧
    ValveModule.Open ⟨pin, false, sc, tpin⟩ env (entryTick 1 a) =
      ⟨⟨0, a, CmdPhase.completed⟩, [⟨52, none⟩], [(pin, false)], [], []⟩ ∧
    ValveModule.Close ⟨pin, false, sc, tpin⟩ env (entryTick 1 a) =
      ⟨⟨0, a, CmdPhase.completed⟩, [⟨53, none⟩], [(pin, true)], [], []⟩ := by
  refine ⟨?_, ?_, ?_, ?_⟩ <;>
    simp [ValveModule.Open, ValveModule.Close, entryTick, DigitalWrite, sendData,
      CompleteCommand, AbortCommand, ValveConfig.kOpen, ValveConfig.kClose, hl]

/-- C7 witness: the polarity theorem applied at pin 29 with tone pin 9. -/
theorem C7_witness :
    ValveModule.Open ⟨29, true, true, 9⟩ ⟨false, false, 0, false⟩ (entryTick 1 0) =
      ⟨⟨0, 0, CmdPhase.completed⟩, [⟨52, none⟩], [(29, true)], [], []⟩ ∧
    ValveModule.Close ⟨29, true, true, 9⟩ ⟨false, false, 0, false⟩ (entryTick 1 0) =
      ⟨⟨0, 0, CmdPhase.completed⟩, [⟨53, none⟩], [(29, false)], [], []⟩ ∧
    ValveModule.Open ⟨29, false, true, 9⟩ ⟨false, false, 0, false⟩ (entryTick 1 0) =
      ⟨⟨0, 0, CmdPhase.completed⟩, [⟨52, none⟩], [(29, false)], [], []⟩ ∧
    ValveModule.Close ⟨29, false, true, 9⟩ ⟨false, false, 0, false⟩ (entryTick 1 0) =
      ⟨⟨0, 0, CmdPhase.completed⟩, [⟨53, none⟩], [(29, true)], [], []⟩ :=
  C7_valve_polarity 29 9 true ⟨false, false, 0, false⟩ 0 rfl

/-- C10: ValveModule.Tone emits the kTonePinNotSet = 57 status and aborts
exactly when a tone pin is configured (kTonePin different from the 255
sentinel); when kTonePin equals the sentinel 255 the command instead runs the
staged tone pulse against pin 255: stage 1 drives pin 255 HIGH, emits
kToneOn = 55 and advances. -/
theorem C10_tone_pin_guard (vc : ValveConfig) (vp : ValveParams) (env : Env) (a stage : Nat) :
    (vc.kTonePin ≠ 255 →
      ValveModule.Tone vc vp env (entryTick stage a) =
        ⟨⟨0, a, CmdPhase.aborted⟩, [⟨57, none⟩], [], [], []⟩) ∧
    (vc.kTonePin = 255 → env.actionLock = false → 0 < vp.tone_duration →
      ValveModule.Tone vc vp env (entryTick 1 a) =
        ⟨⟨2, env.now, CmdPhase.running⟩, [⟨55, none⟩], [(255, true)], [], []⟩) := by
  constructor
  · intro h
    simp [ValveModule.Tone, entryTick, sendData, AbortCommand, h]
  · intro h hl hd
    simp [ValveModule.Tone, entryTick, DigitalWrite, sendData, AdvanceCommandStage,
      CompleteCommand, AbortCommand, WaitForMicros, h, hl,
      show ¬ (vp.tone_duration ≤ 0) from by omega]

/-- C10 witness: the guard theorem applied at a configured tone pin 9 (abort
with kTonePinNotSet) and at the unset sentinel 255 (staged pulse starts on
pin 255). -/
theorem C10_witness :
    ValveModule.Tone ⟨5, true, true, 9⟩ ⟨35590, 200000, 500, 300000⟩ ⟨false, false, 7, false⟩
        (entryTick 1 0) =
      ⟨⟨0, 0, CmdPhase.aborted⟩, [⟨57, none⟩], [], [], []⟩ ∧
    ValveModule.Tone ⟨5, true, true, 255⟩ ⟨35590, 200000, 500, 300000⟩ ⟨false, false, 7, false⟩
        (entryTick 1 0) =
      ⟨⟨2, 7, CmdPhase.running⟩, [⟨55, none⟩], [(255, true)], [], []⟩ :=
  ⟨(C10_tone_pin_guard ⟨5, true, true, 9⟩ ⟨35590, 200000, 500, 300000⟩
      ⟨false, false, 7, false⟩ 0 1).1 (by decide),
   (C10_tone_pin_guard ⟨5, true, true, 255⟩ ⟨35590, 200000, 500, 300000⟩
      ⟨false, false, 7, false⟩ 0 1).2 rfl rfl (by decide)⟩

/-- C6: a TTLModule statically configured as input rejects each of the
output-only commands SendPulse, ToggleOn and ToggleOff immediately with the
kInvalidPinMode = 54 status and an abort, performing no hardware write;
symmetrically, an output-configured TTLModule rejects CheckState with
kInvalidPinMode and an abort without reading the pin or touching the
previous-state tracker. -/
theorem C6_ttl_role_rejection (cfg : TTLConfig) (tp : TTLParams) (env : Env) (a stage : Nat)
    (prev : Bool) :
    TTLModule.SendPulse { cfg with kOutput := false } tp env (entryTick stage a) =
      ⟨⟨0, a, CmdPhase.aborted⟩, [⟨54, none⟩], [], [], []⟩ ∧
    TTLModule.ToggleOn { cfg with kOutput := false } env (entryTick stage a) =
      ⟨⟨0, a, CmdPhase.aborted⟩, [⟨54, none⟩], [], [], []⟩ ∧
    TTLModule.ToggleOff { cfg with kOutput := false } env (entryTick stage a) =
      ⟨⟨0, a, CmdPhase.aborted⟩, [⟨54, none⟩], [], [], []⟩ ∧
    TTLModule.CheckState { cfg with kOutput := true } tp env prev (entryTick stage a) =
      (prev, ⟨⟨0, a, CmdPhase.aborted⟩, [⟨54, none⟩], [], [], []⟩) := by
  refine ⟨?_, ?_, ?_, ?_⟩ <;>
    simp [TTLModule.SendPulse, TTLModule.ToggleOn, TTLModule.ToggleOff, TTLModule.CheckState,
      entryTick, sendData, AbortCommand]

/-- C6 witness: the role-rejection theorem applied at pin 33. -/
theorem C6_witness :
    TTLModule.SendPulse ⟨33, false, false⟩ ⟨10000, 0⟩ ⟨false, false, 0, false⟩ (entryTick 1 0) =
      ⟨⟨0, 0, CmdPhase.aborted⟩, [⟨54, none⟩], [], [], []⟩ ∧
    TTLModule.ToggleOn ⟨33, false, false⟩ ⟨false, false, 0, false⟩ (entryTick 1 0) =
      ⟨⟨0, 0, CmdPhase.aborted⟩, [⟨54, none⟩], [], [], []⟩ ∧
    TTLModule.ToggleOff ⟨33, false, false⟩ ⟨false, false, 0, false⟩ (entryTick 1 0) =
      ⟨⟨0, 0, CmdPhase.aborted⟩, [⟨54, none⟩], [], [], []⟩ ∧
    TTLModule.CheckState ⟨33, true, false⟩ ⟨10000, 0⟩ ⟨false, false, 0, false⟩ false
        (entryTick 1 0) =
      (false, ⟨⟨0, 0, CmdPhase.aborted⟩, [⟨54, none⟩], [], [], []⟩) :=
  C6_ttl_role_rejection ⟨33, false, false⟩ ⟨10000, 0⟩ ⟨false, false, 0, false⟩ 0 1 false

/-- C1: with both shared output locks engaged, every lock-guarded write
attempt of every actuator handler (ValveModule Pulse stages 1 and 3, Open,
Close, Tone stages 1 and 3, Calibrate; TTLModule SendPulse stages 1 and 3,
ToggleOn, ToggleOff; BreakModule EnableBreak, DisableBreak,
SetBreakingPower; ScreenModule Toggle stages 1 and 3; SpeakerModule Pulse
stages 1 and 3, Open, Close) emits exactly one kOutputLocked = 51 event,
aborts into the halted state without advancing the command stage, and causes
no physical pin change. -/
theorem C1_lock_abort (vc : ValveConfig) (vp : ValveParams) (tc : TTLConfig) (tp : TTLParams)
    (bc : BreakConfig) (strength pd : Nat) (sc : ScreenConfig) (spk : SpeakerConfig)
    (env : Env) (a : Nat)
    (hA : env.actionLock = true) (hT : env.ttlLock = true) :
    lockAborted (ValveModule.Pulse vc vp env (entryTick 1 a)) ∧
    lockAborted (ValveModule.Pulse vc vp env (entryTick 3 a)) ∧
    lockAborted (ValveModule.Open vc env (entryTick 1 a)) ∧
    lockAborted (ValveModule.Close vc env (entryTick 1 a)) ∧
    lockAborted (ValveModule.Tone { vc with kTonePin := 255 } vp env (entryTick 1 a)) ∧
    lockAborted (ValveModule.Tone { vc with kTonePin := 255 } vp env (entryTick 3 a)) ∧
    lockAborted (ValveModule.Calibrate vc { vp with calibration_count := vp.calibration_count + 1 }
      env (entryTick 1 a)) ∧
    lockAborted (TTLModule.SendPulse { tc with kOutput := true } tp env (entryTick 1 a)) ∧
    lockAborted (TTLModule.SendPulse { tc with kOutput := true } tp env (entryTick 3 a)) ∧
    lockAborted (TTLModule.ToggleOn { tc with kOutput := true } env (entryTick 1 a)) ∧
    lockAborted (TTLModule.ToggleOff { tc with kOutput := true } env (entryTick 1 a)) ∧
    lockAborted (BreakModule.EnableBreak bc env (entryTick 1 a)) ∧
    lockAborted (BreakModule.DisableBreak bc env (entryTick 1 a)) ∧
    lockAborted (BreakModule.SetBreakingPower bc strength env (entryTick 1 a)) ∧
    lockAborted (ScreenModule.Toggle sc pd env (entryTick 1 a)) ∧
    lockAborted (ScreenModule.Toggle sc pd env (entryTick 3 a)) ∧
    lockAborted (SpeakerModule.Pulse spk pd env (entryTick 1 a)) ∧
    lockAborted (SpeakerModule.Pulse spk pd env (entryTick 3 a)) ∧
    lockAborted (SpeakerModule.Open spk env (entryTick 1 a)) ∧
    lockAborted (SpeakerModule.Close spk env (entryTick 1 a)) := by
  refine ⟨?_, ?_, ?_, ?_, ?_, ?_, ?_, ?_, ?_, ?_, ?_, ?_, ?_, ?_, ?_, ?_, ?_, ?_, ?_, ?_⟩ <;>
    simp [lockAborted, ValveModule.Pulse, ValveModule.Open, ValveModule.Close, ValveModule.Tone,
      ValveModule.Calibrate, valveCalibrateLoop, TTLModule.SendPulse, TTLModule.ToggleOn,
      TTLModule.ToggleOff, BreakModule.EnableBreak, BreakModule.DisableBreak,
      BreakModule.SetBreakingPower, ScreenModule.Toggle, SpeakerModule.Pulse,
      SpeakerModule.Open, SpeakerModule.Close, DigitalWrite, AnalogWrite, sendData,
      digitalWriteFast, AdvanceCommandStage, CompleteCommand, AbortCommand, WaitForMicros,
      entryTick, hA, hT]

set_option maxRecDepth 4096 in
/-- C1 witness: the lock-abort theorem applied at the concrete module
configurations instantiated in main.cpp with both locks engaged. -/
theorem C1_witness :
    lockAborted (ValveModule.Pulse ⟨29, true, true, 9⟩ ⟨35590, 200000, 500, 300000⟩
      ⟨true, true, 0, false⟩ (entryTick 1 0)) ∧
    lockAborted (ValveModule.Pulse ⟨29, true, true, 9⟩ ⟨35590, 200000, 500, 300000⟩
      ⟨true, true, 0, false⟩ (entryTick 3 0)) ∧
    lockAborted (ValveModule.Open ⟨29, true, true, 9⟩ ⟨true, true, 0, false⟩ (entryTick 1 0)) ∧
    lockAborted (ValveModule.Close ⟨29, true, true, 9⟩ ⟨true, true, 0, false⟩ (entryTick 1 0)) ∧
    lockAborted (ValveModule.Tone ⟨29, true, true, 255⟩ ⟨35590, 200000, 500, 300000⟩
      ⟨true, true, 0, false⟩ (entryTick 1 0)) ∧
    lockAborted (ValveModule.Tone ⟨29, true, true, 255⟩ ⟨35590, 200000, 500, 300000⟩
      ⟨true, true, 0, false⟩ (entryTick 3 0)) ∧
    lockAborted (ValveModule.Calibrate ⟨29, true, true, 9⟩ ⟨35590, 200000, 500, 501⟩
      ⟨true, true, 0, false⟩ (entryTick 1 0)) ∧
    lockAborted (TTLModule.SendPulse ⟨33, true, false⟩ ⟨10000, 0⟩ ⟨true, true, 0, false⟩
      (entryTick 1 0)) ∧
    lockAborted (TTLModule.SendPulse ⟨33, true, false⟩ ⟨10000, 0⟩ ⟨true, true, 0, false⟩
      (entryTick 3 0)) ∧
    lockAborted (TTLModule.ToggleOn ⟨33, true, false⟩ ⟨true, true, 0, false⟩ (entryTick 1 0)) ∧
    lockAborted (TTLModule.ToggleOff ⟨33, true, false⟩ ⟨true, true, 0, false⟩ (entryTick 1 0)) ∧
    lockAborted (BreakModule.EnableBreak ⟨28, false, true⟩ ⟨true, true, 0, false⟩
      (entryTick 1 0)) ∧
    lockAborted (BreakModule.DisableBreak ⟨28, false, true⟩ ⟨true, true, 0, false⟩
      (entryTick 1 0)) ∧
    lockAborted (BreakModule.SetBreakingPower ⟨28, false, true⟩ 128 ⟨true, true, 0, false⟩
      (entryTick 1 0)) ∧
    lockAborted (ScreenModule.Toggle ⟨15, 19, 23, true⟩ 1000000 ⟨true, true, 0, false⟩
      (entryTick 1 0)) ∧
    lockAborted (ScreenModule.Toggle ⟨15, 19, 23, true⟩ 1000000 ⟨true, true, 0, false⟩
      (entryTick 3 0)) ∧
    lockAborted (SpeakerModule.Pulse ⟨24, true⟩ 1000000 ⟨true, true, 0, false⟩
      (entryTick 1 0)) ∧
    lockAborted (SpeakerModule.Pulse ⟨24, true⟩ 1000000 ⟨true, true, 0, false⟩
      (entryTick 3 0)) ∧
    lockAborted (SpeakerModule.Open ⟨24, true⟩ ⟨true, true, 0, false⟩ (entryTick 1 0)) ∧
    lockAborted (SpeakerModule.Close ⟨24, true⟩ ⟨true, true, 0, false⟩ (entryTick 1 0)) :=
  C1_lock_abort ⟨29, true, true, 9⟩ ⟨35590, 200000, 500, 300000⟩ ⟨33, true, false⟩ ⟨10000, 0⟩
    ⟨28, false, true⟩ 128 1000000 ⟨15, 19, 23, true⟩ ⟨24, true⟩ ⟨true, true, 0, false⟩ 0 rfl rfl

/-- Evaluation of the truncating uint32 subtraction of the tone remainder:
when the subtrahend is at most the minuend and the minuend is a uint32 value,
sub32 computes the exact difference. -/
theorem sub32_eq_sub (a b : Nat) (hba : b ≤ a) (ha : a < 2 ^ 32) : sub32 a b = a - b := by
  unfold sub32
  omega

/-- C5: for a ValveModule with a configured tone pin and tone_duration at
least pulse_duration, SendPulse extends to five stages: stage 3 drives the
close signal, emits kClosed and advances instead of completing; stage 4
performs no action until tone_duration minus pulse_duration microseconds have
elapsed since its stage anchor; once elapsed, stage 5 drives the tone pin LOW,
emits kToneOff = 56 and completes the command. -/
theorem C5_tone_coupled_pulse (cfg : ValveConfig) (p : ValveParams) (env1 env2 env3 : Env)
    (a1 a2 a3 : Nat)
    (htone : cfg.kTonePin ≠ 255)
    (hlt : p.pulse_duration < p.tone_duration)
    (htd : p.tone_duration < 2 ^ 32)
    (h1 : env1.actionLock = false)
    (h2 : env2.now - a2 < p.tone_duration - p.pulse_duration)
    (h3 : p.tone_duration - p.pulse_duration ≤ env3.now - a3) :
    ValveModule.Pulse cfg p env1 (entryTick 3 a1) =
      ⟨⟨4, env1.now, CmdPhase.running⟩, [⟨53, none⟩], [(cfg.kPin, cfg.kClose)], [], []⟩ ∧
    ValveModule.Pulse cfg p env2 (entryTick 4 a2) = entryTick 4 a2 ∧
    ValveModule.Pulse cfg p env3 (entryTick 4 a3) =
      ⟨⟨0, env3.now, CmdPhase.completed⟩, [⟨56, none⟩], [(cfg.kTonePin, false)], [], []⟩ := by
  have hs : sub32 p.tone_duration p.pulse_duration = p.tone_duration - p.pulse_duration :=
    sub32_eq_sub _ _ (Nat.le_of_lt hlt) htd
  refine ⟨?_, ?_, ?_⟩
  · simp [ValveModule.Pulse, entryTick, DigitalWrite, sendData, digitalWriteFast,
      AdvanceCommandStage, CompleteCommand, AbortCommand, WaitForMicros, h1, htone, hs,
      show ¬ (p.tone_duration - p.pulse_duration ≤ 0) from by omega]
  · simp [ValveModule.Pulse, entryTick, DigitalWrite, sendData, digitalWriteFast,
      AdvanceCommandStage, CompleteCommand, AbortCommand, WaitForMicros, hs,
      show ¬ (p.tone_duration - p.pulse_duration ≤ env2.now - a2) from by omega]
  · simp [ValveModule.Pulse, entryTick, DigitalWrite, sendData, digitalWriteFast,
      AdvanceCommandStage, CompleteCommand, AbortCommand, WaitForMicros, hs, h3]

/-- C5 witness: the tone-coupled pulse theorem applied to the reward valve
configuration of main.cpp (pin 29, tone pin 9) with the default parameters
(pulse 35590 µs, tone 300000 µs, remainder 264410 µs). -/
theorem C5_witness :
    ValveModule.Pulse ⟨29, true, true, 9⟩ ⟨35590, 200000, 500, 300000⟩
        ⟨false, false, 50, false⟩ (entryTick 3 0) =
      ⟨⟨4, 50, CmdPhase.running⟩, [⟨53, none⟩], [(29, false)], [], []⟩ ∧
    ValveModule.Pulse ⟨29, true, true, 9⟩ ⟨35590, 200000, 500, 300000⟩
        ⟨false, false, 100, false⟩ (entryTick 4 0) = entryTick 4 0 ∧
    ValveModule.Pulse ⟨29, true, true, 9⟩ ⟨35590, 200000, 500, 300000⟩
        ⟨false, false, 264410, false⟩ (entryTick 4 0) =
      ⟨⟨0, 264410, CmdPhase.completed⟩, [⟨56, none⟩], [(9, false)], [], []⟩ :=
  C5_tone_coupled_pulse ⟨29, true, true, 9⟩ ⟨35590, 200000, 500, 300000⟩
    ⟨false, false, 50, false⟩ ⟨false, false, 100, false⟩ ⟨false, false, 264410, false⟩
    0 0 0 (by decide) (by decide) (by decide) rfl (by decide) (by decide)

/-- Every event emitted by a single ReadEncoder check carries a magnitude
strictly above the delta threshold, and emitting leaves the overflow
accumulator at exactly 0: both report branches are guarded by the strict
comparison and immediately reset the accumulator. -/
theorem ReadEncoder_report (p : EncoderParams) (invert : Bool) (counter overflow : Int) :
    ∀ e ∈ (EncoderModule.ReadEncoder p invert counter overflow).2,
      (∃ m, e.value = some m ∧ p.delta_threshold < m) ∧
        (EncoderModule.ReadEncoder p invert counter overflow).1 = 0 := by
  intro e he
  simp only [EncoderModule.ReadEncoder] at he ⊢
  split_ifs at he ⊢ <;> simp_all

/-- C2: over any sequence of raw per-check pulse readouts processed by
EncoderModule.ReadEncoder with fixed parameters, whenever a RotatedCW or
RotatedCCW event is emitted, the transmitted magnitude is strictly greater
than delta_threshold and the overflow accumulator equals exactly 0
immediately after the report. -/
theorem C2_encoder_amortization (p : EncoderParams) (invert : Bool) (overflow : Int)
    (cs : List Int) :
    ∀ r ∈ EncoderModule.trace p invert overflow cs, ∀ e ∈ r.2,
      (∃ m, e.value = some m ∧ p.delta_threshold < m) ∧ r.1 = 0 := by
  induction cs generalizing overflow with
  | nil =>
    intro r hr
    simp [EncoderModule.trace] at hr
  | cons c cs ih =>
    intro r hr
    simp only [EncoderModule.trace, List.mem_cons] at hr
    rcases hr with rfl | hr
    · intro e he
      exact ReadEncoder_report p invert c overflow e he
    · exact ih _ r hr

/-- C2 witness: the amortization theorem applied to the specification's
encoder scenario: threshold 15, four checks of +5 pulses; the fourth check
reports kRotatedCCW with magnitude 20 and the accumulator resets to 0. -/
theorem C2_witness :
    (∃ m, (Event.mk 51 (some 20)).value = some m ∧ 15 < m) ∧
      ((0 : Int), [Event.mk 51 (some 20)]).1 = 0 :=
  C2_encoder_amortization ⟨true, true, 15⟩ false 0 [5, 5, 5, 5]
    ((0 : Int), [Event.mk 51 (some 20)]) (by decide) ⟨51, some 20⟩ (by decide)

/-- Accumulating through a mod-reducing fold equals the mod of the plain
sum: each step may reduce modulo M without changing the final residue. -/
theorem foldl_mod_add (M : Nat) (f : Nat → Nat) (l : List Nat) :
    ∀ acc : Nat, l.foldl (fun a i => (a + f i) % M) (acc % M) = (acc + (l.map f).sum) % M := by
  induction l with
  | nil => intro acc; simp
  | cons x xs ih =>
    intro acc
    simp only [List.foldl_cons, List.map_cons, List.sum_cons]
    rw [Nat.mod_add_mod, ih (acc + f x), Nat.add_assoc]

/-- C8: GetPPR accumulates the absolute per-rotation pulse counts of exactly
10 measured rotations and reports, as the uint16 kPPR = 53 event, the
half-up-rounded integer average, that is (sum + 5) / 10 with truncating
division; exact whenever the uint32 running sum and the uint16 report do not
wrap. -/
theorem C8_ppr_estimation (counts : Nat → Int)
    (hsum : ((List.range 10).map fun i => (counts i).natAbs).sum < 2 ^ 32)
    (havg : (((List.range 10).map fun i => (counts i).natAbs).sum + 5) / 10 < 2 ^ 16) :
    EncoderModule.GetPPR counts =
      ((((List.range 10).map fun i => (counts i).natAbs).sum + 5) / 10,
        [⟨53, some ((((List.range 10).map fun i => (counts i).natAbs).sum + 5) / 10)⟩]) := by
  have hf := foldl_mod_add (2 ^ 32) (fun i => (counts i).natAbs) (List.range 10) 0
  simp only [Nat.zero_mod, Nat.zero_add] at hf
  have h52 : (10 : Nat) / 2 = 5 := rfl
  simp only [EncoderModule.GetPPR, hf, h52, Nat.mod_eq_of_lt hsum, Nat.mod_eq_of_lt havg]

/-- C8 witness: the PPR theorem applied to a constant 230 pulses per
rotation: the sum is 2300 and the report is (2300 + 5) / 10 = 230. -/
theorem C8_witness :
    EncoderModule.GetPPR (fun _ => (230 : Int)) = (230, [⟨53, some 230⟩]) := by
  have h := C8_ppr_estimation (fun _ => (230 : Int)) (by decide) (by decide)
  rw [h]
  decide

/-- C3 counterexample: with the default parameters (signal threshold 200,
delta threshold 100), the above-threshold sample 250 is reported and sets
previous_readout to 250; the following run of sub-threshold samples
180, 180, 180 stays within the delta threshold of the stored readout and
emits zero explicit zero events, refuting the claim that exactly one zero
event is emitted in every such run. -/
theorem C3_counterexample :
    (LickModule.CheckState ⟨200, 100, 0⟩ 250 ⟨0, true⟩).2 = [⟨51, some 250⟩] ∧
    (LickModule.CheckState ⟨200, 100, 0⟩ 250 ⟨0, true⟩).1 = (⟨250, false⟩ : LickState) ∧
    zeroEventCount (LickModule.run ⟨200, 100, 0⟩ ⟨250, false⟩ [180, 180, 180]).2 = 0 := by
  decide

/-- CheckState when the delta gate rejects the sample: nothing happens. -/
theorem CheckState_small_delta (p : LickParams) (signal : Nat) (s : LickState)
    (h1 : lickDelta signal s.previous_readout ≤ p.delta_threshold) :
    LickModule.CheckState p signal s = (s, []) := by
  unfold LickModule.CheckState
  simp [h1]

/-- CheckState on a significant above-threshold sample: the raw value is
reported and the zero flag is cleared. -/
theorem CheckState_report_high (p : LickParams) (signal : Nat) (s : LickState)
    (h1 : ¬ lickDelta signal s.previous_readout ≤ p.delta_threshold)
    (h2 : p.signal_threshold ≤ signal) :
    LickModule.CheckState p signal s = (⟨signal, false⟩, [⟨51, some signal⟩]) := by
  unfold LickModule.CheckState
  simp [h1, h2]

/-- CheckState on a significant sub-threshold sample while the previous
report was non-zero: an explicit zero is reported and the zero flag set. -/
theorem CheckState_report_zero (p : LickParams) (signal : Nat) (s : LickState)
    (h1 : ¬ lickDelta signal s.previous_readout ≤ p.delta_threshold)
    (h2 : ¬ p.signal_threshold ≤ signal) (h3 : s.previous_zero = false) :
    LickModule.CheckState p signal s = (⟨signal, true⟩, [⟨51, some 0⟩]) := by
  unfold LickModule.CheckState
  simp [h1, h2, h3]

/-- CheckState on a significant sub-threshold sample while the previous
report was already zero: no event, but previous_readout is overwritten. -/
theorem CheckState_silent_zero (p : LickParams) (signal : Nat) (s : LickState)
    (h1 : ¬ lickDelta signal s.previous_readout ≤ p.delta_threshold)
    (h2 : ¬ p.signal_threshold ≤ signal) (h3 : s.previous_zero = true) :
    LickModule.CheckState p signal s = (⟨signal, true⟩, []) := by
  unfold LickModule.CheckState
  simp [h1, h2, h3]

/-- Once the zero flag is set, a run of sub-threshold samples emits no
events at all and leaves the flag set: repeated sub-threshold noise is
debounced into silence. -/
theorem lick_run_zero_flag (p : LickParams) (s : LickState) (xs : List Nat)
    (hz : s.previous_zero = true) (hx : ∀ x ∈ xs, x < p.signal_threshold) :
    (LickModule.run p s xs).2 = [] ∧ (LickModule.run p s xs).1.previous_zero = true := by
  induction xs generalizing s with
  | nil => simpa [LickModule.run] using hz
  | cons x xs ih =>
    have hxlt : x < p.signal_threshold := hx x (by simp)
    have hxs : ∀ y ∈ xs, y < p.signal_threshold := fun y hy => hx y (by simp [hy])
    have h2 : ¬ p.signal_threshold ≤ x := by omega
    simp only [LickModule.run]
    by_cases h1 : lickDelta x s.previous_readout ≤ p.delta_threshold
    · rw [CheckState_small_delta p x s h1]
      simpa using ih s hz hxs
    · rw [CheckState_silent_zero p x s h1 h2 hz]
      simpa using ih ⟨x, true⟩ rfl hxs

/-- C3 amended: for any filter state whose last report was non-zero and any
run of sub-threshold samples, at most one explicit zero event is emitted over
the whole run (exactly one is not guaranteed: a run staying within the delta
threshold of the stored readout emits none). -/
theorem C3_zero_debounce (p : LickParams) (s : LickState) (xs : List Nat)
    (hz : s.previous_zero = false) (hx : ∀ x ∈ xs, x < p.signal_threshold) :
    zeroEventCount (LickModule.run p s xs).2 ≤ 1 := by
  induction xs generalizing s with
  | nil => simp [LickModule.run, zeroEventCount]
  | cons x xs ih =>
    have hxlt : x < p.signal_threshold := hx x (by simp)
    have hxs : ∀ y ∈ xs, y < p.signal_threshold := fun y hy => hx y (by simp [hy])
    have h2 : ¬ p.signal_threshold ≤ x := by omega
    simp only [LickModule.run]
    by_cases h1 : lickDelta x s.previous_readout ≤ p.delta_threshold
    · rw [CheckState_small_delta p x s h1]
      simpa using ih s hz hxs
    · rw [CheckState_report_zero p x s h1 h2 hz]
      have hrest := lick_run_zero_flag p ⟨x, true⟩ xs rfl hxs
      simp [zeroEventCount, List.countP_append, hrest.1]

/-- C3 witness: the at-most-one theorem applied after a reported sample 250
to the sub-threshold run 180, 120, 60. -/
theorem C3_witness :
    zeroEventCount (LickModule.run ⟨200, 100, 0⟩ ⟨250, false⟩ [180, 120, 60]).2 ≤ 1 :=
  C3_zero_debounce ⟨200, 100, 0⟩ ⟨250, false⟩ [180, 120, 60] rfl (by decide)

/-- C9 counterexample: with the default parameters (signal threshold 200,
delta threshold 100) and filter state (previous_readout 0, zero flag set),
the sample 150 sends no event to the PC yet updates previous_readout from 0
to 150, refuting the claim that the stored sample is unchanged on every call
that sends no event. -/
theorem C9_counterexample :
    (LickModule.CheckState ⟨200, 100, 0⟩ 150 ⟨0, true⟩).2 = [] ∧
    (LickModule.CheckState ⟨200, 100, 0⟩ 150 ⟨0, true⟩).1.previous_readout = 150 ∧
    ¬ (LickModule.CheckState ⟨200, 100, 0⟩ 150 ⟨0, true⟩).1.previous_readout = 0 := by
  decide

/-- C9 amended: the zero flag is unchanged on every call that sends no
event, and the whole filter state is unchanged on every call gated out by the
delta threshold; but previous_readout is overwritten with the sample on every
call whose delta exceeds the threshold, even when no event is emitted (a
sub-threshold sample with the zero flag already set). -/
theorem C9_frame_conditions (p : LickParams) (signal : Nat) (s : LickState) :
    ((LickModule.CheckState p signal s).2 = [] →
      (LickModule.CheckState p signal s).1.previous_zero = s.previous_zero) ∧
    (lickDelta signal s.previous_readout ≤ p.delta_threshold →
      LickModule.CheckState p signal s = (s, [])) ∧
    (p.delta_threshold < lickDelta signal s.previous_readout →
      (LickModule.CheckState p signal s).1.previous_readout = signal) := by
  by_cases h1 : lickDelta signal s.previous_readout ≤ p.delta_threshold
  · rw [CheckState_small_delta p signal s h1]
    exact ⟨fun _ => rfl, fun _ => rfl, fun hc => absurd hc (by omega)⟩
  · refine ⟨?_, fun hc => absurd hc h1, ?_⟩ <;>
      by_cases h2 : p.signal_threshold ≤ signal
    · rw [CheckState_report_high p signal s h1 h2]
      intro hc
      simp at hc
    · cases hz : s.previous_zero with
      | false =>
        rw [CheckState_report_zero p signal s h1 h2 hz]
        intro hc
        simp at hc
      | true =>
        rw [CheckState_silent_zero p signal s h1 h2 hz]
        exact fun _ => rfl
    · rw [CheckState_report_high p signal s h1 h2]
      exact fun _ => rfl
    · cases hz : s.previous_zero with
      | false =>
        rw [CheckState_report_zero p signal s h1 h2 hz]
        exact fun _ => rfl
      | true =>
        rw [CheckState_silent_zero p signal s h1 h2 hz]
        exact fun _ => rfl

/-- C9 witness: the frame-condition theorem applied at the counterexample
input (signal 150 against state ⟨0, true⟩). -/
theorem C9_witness :
    (((LickModule.CheckState ⟨200, 100, 0⟩ 150 ⟨0, true⟩).2 = [] →
      (LickModule.CheckState ⟨200, 100, 0⟩ 150 ⟨0, true⟩).1.previous_zero = true) ∧
    (lickDelta 150 0 ≤ 100 →
      LickModule.CheckState ⟨200, 100, 0⟩ 150 ⟨0, true⟩ = (⟨0, true⟩, [])) ∧
    (100 < lickDelta 150 0 →
      (LickModule.CheckState ⟨200, 100, 0⟩ 150 ⟨0, true⟩).1.previous_readout = 150)) :=
  C9_frame_conditions ⟨200, 100, 0⟩ 150 ⟨0, true⟩

end SlMicro
